import Mathlib

/-!
Verification of the analytics core of a shipment-QnA chatbot.

This file gives a shallow embedding, in Lean 4, of the components of the
repository that the specification claims talk about:

* `BlobAnalyticsManager.load_filtered_data` and
  `BlobAnalyticsManager.download_master_data`
  (src/shipment_qna_bot/tools/blob_manager.py),
* `PandasAnalyticsEngine._preflight_validate_code` and
  `PandasAnalyticsEngine.execute_code`
  (src/shipment_qna_bot/tools/pandas_engine.py),
* the row-level-security view of `DuckDBAnalyticsEngine.execute_query`
  (src/shipment_qna_bot/tools/duckdb_engine.py),
* `_wants_chart`, `_chart_kind`, `_as_float`, `_build_chart_spec_from_table`
  and the execute/repair/retry section of `analytics_planner_node`
  (src/shipment_qna_bot/graph/nodes/analytics_planner.py).

Python object identity (DataFrame aliasing, `.copy()`) is made explicit by a
small heap model: DataFrames live in a heap (a list of values addressed by
position), caches and scopes hold addresses, and `.copy()` is allocation of a
fresh cell.  For the execution engine the model distinguishes frame objects
from the mutable objects held in object-dtype cells (the `consignee_codes`
lists): `DataFrame.copy()` allocates a fresh frame but shares those nested
objects with the original.  Mutation by untrusted code is an arbitrary
function applied to the frame bound in its scope and to the objects
reachable from it.
-/

namespace ShipmentQnA

/-! ### String utilities

Executable embeddings of the Python string primitives used by the code:
code-point lexicographic comparison (`sorted` on `str`), `str.lower`,
substring membership (`in`), suffix test (`str.endswith`) and `split(".")`.
All are structurally recursive so that concrete instances evaluate inside the
kernel. -/

/-- Code-point lexicographic comparison of character lists; this is the order
Python `sorted` uses on strings. -/
def lexLe : List Char → List Char → Bool
  | [], _ => true
  | _ :: _, [] => false
  | a :: as, b :: bs =>
    if a.toNat < b.toNat then true
    else if b.toNat < a.toNat then false
    else lexLe as bs

/-- The order on strings induced by `lexLe`, as a relation usable by
`List.insertionSort`. -/
def pyStrLe (a b : String) : Prop := lexLe a.data b.data = true

instance : DecidableRel pyStrLe := fun a b =>
  inferInstanceAs (Decidable (lexLe a.data b.data = true))

/-- Embedding of Python `str.lower()` (character-wise lowering). -/
def lowerStr (s : String) : String := String.mk (s.data.map Char.toLower)

/-- Whether `pre` is an initial segment of `l`. -/
def beginsWith : List Char → List Char → Bool
  | [], _ => true
  | _ :: _, [] => false
  | a :: as, b :: bs => a == b && beginsWith as bs

/-- Embedding of the Python substring test `needle in hay`. -/
def containsSub (hay needle : String) : Bool :=
  go needle.data hay.data
where
  go (needle : List Char) : List Char → Bool
    | [] => needle.isEmpty
    | c :: rest => beginsWith needle (c :: rest) || go needle rest

/-- Embedding of Python `s.endswith(suf)`. -/
def endsWithStr (s suf : String) : Bool :=
  beginsWith suf.data.reverse s.data.reverse

/-- Split a character list at a separator character (used to embed
Python `module_name.split(".")`). -/
def splitOnCharAux (sep : Char) (cur : List Char) : List Char → List (List Char)
  | [] => [cur.reverse]
  | c :: rest =>
    if c == sep then cur.reverse :: splitOnCharAux sep [] rest
    else splitOnCharAux sep (c :: cur) rest

/-- Split a string at a separator character. -/
def splitOnChar (sep : Char) (s : String) : List String :=
  (splitOnCharAux sep [] s.data).map String.mk

/-! ### Cache key normalization (blob_manager.py line 134)

`load_filtered_data` computes the filtered-cache key as
`"|".join(sorted(consignee_codes))`. -/

/-- Embedding of `cache_key = "|".join(sorted(consignee_codes))`
(blob_manager.py line 134).  Note the source sorts but does not
deduplicate. -/
def cache_key (codes : List String) : String :=
  String.intercalate "|" (List.insertionSort pyStrLe codes)

/-! ### Authorization filter (blob_manager.py lines 196-203, duckdb_engine.py lines 73-78)

A snapshot row carries the multi-valued authorization column
`consignee_codes` plus the remaining column values (modelled as an
association list of column name to cell text).  The snapshot is a list of
rows; the pandas default RangeIndex is the position in that list. -/

/-- One row of the master snapshot. -/
structure SRow where
  consignee_codes : List String
  payload : List (String × String)
deriving DecidableEq

/-- Embedding of `df.explode("consignee_codes")` starting at index `i`:
each row becomes one exploded entry per authorization code; pandas turns an
empty list into a single NaN entry, modelled as `Option.none`. -/
def explodeFrom (i : Nat) : List SRow → List (Nat × Option String)
  | [] => []
  | r :: rs =>
    (if r.consignee_codes.isEmpty then [(i, Option.none)]
     else r.consignee_codes.map (fun c => (i, some c))) ++ explodeFrom (i + 1) rs

/-- Embedding of `exploded["consignee_codes"].isin(consignee_codes)` on one
exploded cell; NaN (from an exploded empty list) is never a member. -/
def isinMask (S : List String) : Option String → Bool
  | Option.none => false
  | some c => S.contains c

/-- Keep the first occurrence of every index, in order of first appearance
(the behaviour of `pandas.Index.unique`). -/
def uniqueFirstAux (seen : List Nat) : List Nat → List Nat
  | [] => []
  | a :: l =>
    if a ∈ seen then uniqueFirstAux seen l
    else a :: uniqueFirstAux (a :: seen) l

/-- Embedding of `.index.unique()` over the masked exploded frame. -/
def uniqueFirst (l : List Nat) : List Nat := uniqueFirstAux [] l

/-- Embedding of `valid_indices = exploded[mask].index.unique()`
(blob_manager.py lines 198-200). -/
def valid_indices (s : List SRow) (S : List String) : List Nat :=
  uniqueFirst (((explodeFrom 0 s).filter (fun p => isinMask S p.2)).map Prod.fst)

/-- Embedding of `df.loc[idxs]` for a unique RangeIndex: the rows at the
given positions, in the order the positions are listed. -/
def loc_select (s : List SRow) (idxs : List Nat) : List SRow :=
  idxs.filterMap (fun i => s.get? i)

/-- The pandas-side authorization filter of `load_filtered_data`
(blob_manager.py lines 196-203): explode, membership mask, recover unique
row indices, structural select.  The trailing `.copy()` copies values
unchanged, so the selected row values are exactly these. -/
def load_filtered_rows (s : List SRow) (S : List String) : List SRow :=
  loc_select s (valid_indices s S)

/-- DuckDB `list_has_any(a, b)`: do the two lists share an element? -/
def list_has_any (a b : List String) : Bool := a.any (fun c => b.contains c)

/-- The DuckDB-side read-only view of `execute_query`
(duckdb_engine.py lines 73-78): `SELECT * FROM read_parquet(...) WHERE
list_has_any(consignee_codes, [codes])`, preserving row order. -/
def duckdb_view (s : List SRow) (S : List String) : List SRow :=
  s.filter (fun r => list_has_any r.consignee_codes S)

/-- Proof-internal characterization: the multiset of masked exploded indices,
row by row. -/
def matchedIdx (S : List String) (i : Nat) : List SRow → List Nat
  | [] => []
  | r :: rs =>
    List.replicate (r.consignee_codes.countP (fun c => S.contains c)) i ++
      matchedIdx S (i + 1) rs

/-- Proof-internal characterization: the index of each row whose
authorization codes intersect `S`, in row order. -/
def selIdx (S : List String) (i : Nat) : List SRow → List Nat
  | [] => []
  | r :: rs =>
    (if list_has_any r.consignee_codes S then [i] else []) ++ selIdx S (i + 1) rs

/-! ### Heap model of the in-memory caches (blob_manager.py lines 26-30, 125-215)

The class attributes `_MASTER_DF_CACHE`, `_FILTERED_CACHE` and
`_LAST_LOAD_DATE` are process-wide mutable state.  DataFrames are Python
objects with identity, so the caches are modelled as holding heap addresses;
`.copy()` allocates a fresh cell. -/

/-- The process-wide state of `BlobAnalyticsManager`. -/
structure BlobState where
  heap : List (List SRow)
  master_cache : Option Nat
  filtered_cache : List (String × Nat)
  last_load_date : Option String
  download_count : Nat
deriving DecidableEq

/-- Allocate a fresh DataFrame cell (object creation or `.copy()`). -/
def allocDf (st : BlobState) (v : List SRow) : BlobState × Nat :=
  ({ st with heap := st.heap ++ [v] }, st.heap.length)

/-- Reload branch of `load_filtered_data` (blob_manager.py lines 145-190):
download, parse with column pruning and type casting (the parsed result is
the `masterRows` parameter), publish as the master cache, stamp the date and
invalidate every filtered slice.  `download_count` counts trips through this
load path. -/
def reload_master (st : BlobState) (today : String) (masterRows : List SRow) : BlobState :=
  let p := allocDf st masterRows
  { p.1 with
      master_cache := some p.2
      last_load_date := some today
      filtered_cache := []
      download_count := st.download_count + 1 }

/-- Cache-miss tail of `load_filtered_data` (blob_manager.py lines 144-211):
optionally reload the master, filter it, `.copy()` the filtered frame into a
fresh cell, store that cell in the filtered cache and return the very same
address that was stored. -/
def filter_and_cache (st : BlobState) (today : String) (masterRows : List SRow)
    (codes : List String) (key : String) : BlobState × Nat :=
  let st1 :=
    if st.last_load_date ≠ some today ∨ st.master_cache = Option.none then
      reload_master st today masterRows
    else st
  let m := st1.master_cache.getD 0
  let master := st1.heap.getD m []
  let p := allocDf st1 (load_filtered_rows master codes)
  ({ p.1 with filtered_cache := (key, p.2) :: p.1.filtered_cache }, p.2)

/-- Embedding of `BlobAnalyticsManager.load_filtered_data`
(blob_manager.py lines 125-215).  Returns the new state and the heap address
of the DataFrame handed to the caller.  An empty code list short-circuits to
a freshly allocated empty DataFrame (line 130); a same-day filtered-cache hit
returns the stored address itself (line 142). -/
def load_filtered_data (st : BlobState) (today : String) (masterRows : List SRow)
    (codes : List String) : BlobState × Nat :=
  if codes.isEmpty then
    allocDf st []
  else
    let key := cache_key codes
    if st.last_load_date = some today then
      match st.filtered_cache.lookup key with
      | some a => (st, a)
      | Option.none => filter_and_cache st today masterRows codes key
    else filter_and_cache st today masterRows codes key

/-! ### Local snapshot files (blob_manager.py lines 44-123)

The cache directory is a small path-to-content map. -/

/-- Read a path from the modelled filesystem. -/
def fsLookup (fs : List (String × String)) (p : String) : Option String := fs.lookup p

/-- Embedding of `os.remove(p)` (all entries for the path disappear). -/
def fsRemove (fs : List (String × String)) (p : String) : List (String × String) :=
  fs.filter (fun e => e.1 != p)

/-- Embedding of `open(p, "wb")` followed by writing `v`. -/
def fsWrite (fs : List (String × String)) (p v : String) : List (String × String) :=
  (p, v) :: fsRemove fs p

/-- Embedding of `_get_cache_path` (blob_manager.py lines 47-49). -/
def cache_path (cache_dir date_str : String) (test_mode : Bool) : String :=
  cache_dir ++ "/master_" ++ date_str ++ (if test_mode then ".test" else "") ++ ".parquet"

/-- Which paths the glob `cache_dir/master_*.parquet` matches. -/
def is_master_cache_file (cache_dir : String) (p : String) : Bool :=
  beginsWith (cache_dir ++ "/master_").data p.data && endsWithStr p ".parquet"

/-- Embedding of `_cleanup_old_cache` (blob_manager.py lines 51-64): delete
every matching snapshot file other than the target. -/
def cleanup_old_cache (fs : List (String × String)) (cache_dir target : String) :
    List (String × String) :=
  fs.filter (fun e => !(is_master_cache_file cache_dir e.1 && e.1 != target))

/-- Outcome of the single streaming fetch from the object store; on failure
the partially transferred bytes have already been written into the open
file. -/
inductive FetchOutcome
  | ok (content : String)
  | err (partData : String) (msg : String)

/-- Embedding of `BlobAnalyticsManager.download_master_data`
(blob_manager.py lines 66-123).  The function consumes exactly one
`FetchOutcome`: there is no internal retry loop in the source.  On fetch
failure the partially written target file is removed (lines 120-122) and a
`RuntimeError` surfaces (line 123). -/
def download_master_data (fs : List (String × String)) (today cache_dir : String)
    (test_mode : Bool) (fetch : FetchOutcome) :
    List (String × String) × Except String String :=
  let target := cache_path cache_dir today test_mode
  let fs1 := cleanup_old_cache fs cache_dir target
  if (fsLookup fs1 target).isSome then (fs1, Except.ok target)
  else if test_mode then (fsWrite fs1 target "dummy master parquet", Except.ok target)
  else
    match fetch with
    | FetchOutcome.ok content => (fsWrite fs1 target content, Except.ok target)
    | FetchOutcome.err partData msg =>
      let fs2 := fsWrite fs1 target partData
      let fs3 := fsRemove fs2 target
      (fs3, Except.error ("Blob download failed: " ++ msg))

/-! ### Pandas engine (pandas_engine.py lines 40-70 and 120-167)

An untrusted fragment is modelled line by line through the lens of the three
preflight regexes, plus the column names its text mentions in
`["col"].str.` position, plus its runtime behaviour as an arbitrary function
on the one DataFrame cell its execution scope can reach. -/

/-- A `\d{4}-\d{2}-\d{2}` token of the fragment text, with its components. -/
structure DateLit where
  y : Nat
  m : Nat
  d : Nat
  text : String
deriving DecidableEq

/-- One physical line of the fragment, as the preflight regexes see it:
`importHead` is the module named by a line-initial `import M` or
`from M import ...` statement (the `^\s*(?:from|import)\s+([\w\.]*)`
multiline regex); `dateLits` are the date-literal tokens on the line;
`truthCheckVars` are the variables matched by `\bif\s+(\w*)\s*:`. -/
structure CodeLine where
  importHead : Option String
  dateLits : List DateLit
  truthCheckVars : List String
deriving DecidableEq

/-- The import allow list (pandas_engine.py line 30). -/
def allowed_import_roots : List String := ["pandas", "numpy", "json"]

/-- Embedding of `module_name.split(".")[0].lower()`. -/
def moduleRoot (m : String) : String :=
  lowerStr ((splitOnChar '.' m).headD m)

/-- Gregorian leap year. -/
def leapYear (y : Nat) : Bool := (y % 4 == 0 && y % 100 != 0) || y % 400 == 0

/-- Days in a month. -/
def daysInMonth (y m : Nat) : Nat :=
  if m = 2 then (if leapYear y then 29 else 28)
  else if [4, 6, 9, 11].contains m then 30
  else 31

/-- Whether `pd.Timestamp(token)` accepts the date literal: a valid calendar
date.  (The pandas timestamp range limits at years 1677 and 2262 are not
modelled; no claim depends on them.) -/
def validDate (dl : DateLit) : Bool :=
  1 ≤ dl.m && dl.m ≤ 12 && 1 ≤ dl.d && dl.d ≤ daysInMonth dl.y dl.m

/-- Embedding of `PandasAnalyticsEngine._preflight_validate_code`
(pandas_engine.py lines 40-70): first the import allow-list check over all
line-initial import statements in order, then the date-literal check, then
the ambiguous-truthiness check; the first violation produces the message. -/
def preflight_validate_code (ls : List CodeLine) : Option String :=
  match (ls.filterMap (fun l => l.importHead)).find?
      (fun m => !(allowed_import_roots.contains (moduleRoot m))) with
  | some m =>
    some ("Import \x27" ++ m ++ "\x27 is not allowed in analytics execution. " ++
      "Use only pandas/numpy/json.")
  | Option.none =>
    match ((ls.map (fun l => l.dateLits)).flatten).find? (fun dl => !(validDate dl)) with
    | some dl =>
      some ("Invalid date literal \x27" ++ dl.text ++ "\x27. " ++
        "Please use a valid calendar date.")
    | Option.none =>
      match ((ls.map (fun l => l.truthCheckVars)).flatten).find?
          (fun v => ["df", "df_filtered", "result"].contains v || endsWithStr v "_df") with
      | some v =>
        some ("Ambiguous truth-value check on \x27" ++ v ++ "\x27. " ++
          "Use explicit checks like \x60.empty\x60, \x60.any()\x60, or \x60.all()\x60.")
      | Option.none => Option.none

/-- A Python scalar as it appears in result cells. -/
inductive PyVal
  | null
  | bool (b : Bool)
  | num (q : ℚ)
  | str (s : String)
deriving DecidableEq

/-- A DataFrame cell: either an immutable scalar, or a reference to a
mutable object — the contents of object-dtype cells, such as the
`consignee_codes` lists.  `DataFrame.copy()` copies the cells (so the copy
has its own cell slots) but does not copy the objects those cells reference:
the copy and the original share them. -/
inductive PCell
  | scalar (v : PyVal)
  | ref (a : Nat)
deriving DecidableEq

/-- An in-memory tabular view: column names and positional rows of cells.
Multi-valued cells (the `consignee_codes` lists) are `PCell.ref` addresses
into an object heap `objs : List (List String)`. -/
structure PDataFrame where
  cols : List String
  rows : List (List PCell)
deriving DecidableEq

/-- A rendering of a scalar, standing in for Python `str(...)` (numeric
formatting is approximate; no claim depends on it). -/
def pyRepr : PyVal → String
  | PyVal.null => "None"
  | PyVal.bool true => "True"
  | PyVal.bool false => "False"
  | PyVal.num q =>
    if q.den = 1 then toString q.num else toString q.num ++ "/" ++ toString q.den
  | PyVal.str s => s

/-- Python rendering of a list object (approximate; no claim depends on
it). -/
def pyListRepr (l : List String) : String :=
  "[" ++ String.intercalate ", " (l.map (fun s => "\x27" ++ s ++ "\x27")) ++ "]"

/-- Python `str(...)` of a cell, dereferencing through the object heap. -/
def pyCellRepr (objs : List (List String)) : PCell → String
  | PCell.scalar v => pyRepr v
  | PCell.ref a => pyListRepr (objs.getD a [])

/-- Replace the cells of column `c` by their string renderings (the
`astype("string")` coercion; the source skips columns already of string
dtype, for which the coercion is the identity anyway). -/
def coerce_col (objs : List (List String)) (df : PDataFrame) (c : String) : PDataFrame :=
  if df.cols.contains c then
    { df with
        rows := df.rows.map (fun row =>
          (df.cols.zip row).map (fun p =>
            if p.1 = c then PCell.scalar (PyVal.str (pyCellRepr objs p.2)) else p.2)) }
  else df

/-- Embedding of the string-coercion loop of `execute_code`
(pandas_engine.py lines 149-154), applied to the working copy only. -/
def coerce_str_columns (objs : List (List String)) (df : PDataFrame)
    (cs : List String) : PDataFrame :=
  cs.foldl (coerce_col objs) df

/-- What one `exec` of the fragment does with its local scope: a new value
for the frame bound to `df` (assignment to the name, structural mutation),
in-place updates to mutable objects as address-to-new-contents pairs, the
captured stdout and an optional raised exception.  `execute_code` applies an
object update only when the address is reachable from the working frame —
the scope-confinement semantics of `exec`; reachability through the
retained `__builtins__` (the validator gap shown for the preflight claim) is
not modelled here. -/
structure ExecEffect where
  newDf : PDataFrame
  objUpdates : List (Nat × List String)
  out : String
  raised : Option String

/-- An untrusted fragment: its preflight view, the columns its text mentions
in `["col"].str.` position (`_extract_str_columns`), and its runtime
behaviour as a function of what its scope can see: the frame bound to `df`
and the object heap behind it. -/
structure PyFragment where
  lines : List CodeLine
  strColRefs : List String
  run : PDataFrame → List (List String) → ExecEffect

/-- The outcome record of `execute_code`; `execCalled` is true exactly when
the branch containing the `exec` call was reached. -/
structure EngineResult where
  success : Bool
  error : String
  out : String
  execCalled : Bool
deriving DecidableEq

/-- The object addresses reachable from a frame: those its cells
reference. -/
def frameRefs (df : PDataFrame) : List Nat :=
  df.rows.flatten.filterMap (fun c =>
    match c with
    | PCell.ref a => some a
    | PCell.scalar _ => Option.none)

/-- Apply the fragment's in-place object mutations; only objects reachable
from the fragment's scope can be touched. -/
def applyObjUpdates (objs : List (List String)) (reach : List Nat)
    (ups : List (Nat × List String)) : List (List String) :=
  ups.foldl (fun acc u => if u.1 ∈ reach then acc.set u.1 u.2 else acc) objs

/-- Embedding of `PandasAnalyticsEngine.execute_code`
(pandas_engine.py lines 120-167 plus the exception handler at 260-266):
preflight validation first (returning a failed result with empty output and
no execution); otherwise `working_df = df.copy()` allocates a fresh frame
cell whose cells still reference the same objects, string coercion is
applied to the copy, the fragment runs with its scope bound to the copy,
and success reflects whether it raised. -/
def execute_code (frames : List PDataFrame) (objs : List (List String))
    (dfAddr : Nat) (frag : PyFragment) :
    (List PDataFrame × List (List String)) × EngineResult :=
  match preflight_validate_code frag.lines with
  | some err => ((frames, objs), ⟨false, err, "", false⟩)
  | Option.none =>
    let callerDf := frames.getD dfAddr ⟨[], []⟩
    let working := coerce_str_columns objs callerDf frag.strColRefs
    let frames1 := frames ++ [working]
    let wAddr := frames.length
    let eff := frag.run working objs
    let frames2 := frames1.set wAddr eff.newDf
    let objs2 := applyObjUpdates objs (frameRefs working) eff.objUpdates
    match eff.raised with
    | some e => ((frames2, objs2), ⟨false, e, eff.out, true⟩)
    | Option.none => ((frames2, objs2), ⟨true, "", eff.out, true⟩)

/-- Digit run to a natural number. -/
def digitsToNat (ds : List Char) : Nat :=
  ds.foldl (fun acc c => acc * 10 + (c.toNat - '0'.toNat)) 0

/-- Strip leading and trailing whitespace (Python `str.strip()`). -/
def trimChars (cs : List Char) : List Char :=
  ((cs.dropWhile Char.isWhitespace).reverse.dropWhile Char.isWhitespace).reverse

/-- Parse an optional sign, an integer part and an optional fractional part
(the common inputs of Python `float(...)`; exponent, infinity and NaN forms
are not modelled — no claim depends on them). -/
def parseDecimal (cs : List Char) : Option ℚ :=
  let signed : ℚ × List Char :=
    match cs with
    | '-' :: r => (-1, r)
    | '+' :: r => (1, r)
    | r => (1, r)
  let ip := signed.2.takeWhile Char.isDigit
  let tail1 := signed.2.drop ip.length
  match tail1 with
  | [] => if ip.isEmpty then Option.none else some (signed.1 * (digitsToNat ip : ℚ))
  | '.' :: fp =>
    if fp.all Char.isDigit && !(ip.isEmpty && fp.isEmpty) then
      some (signed.1 *
        ((digitsToNat ip : ℚ) + (digitsToNat fp : ℚ) / ((10 : ℚ) ^ fp.length)))
    else Option.none
  | _ => Option.none

/-- Embedding of the string branch of `_as_float` (analytics_planner.py
lines 146-154): strip, drop commas, drop one trailing percent sign, reject
the empty remainder, then `float(...)`. -/
def pyFloatParse (s : String) : Option ℚ :=
  let raw := (trimChars s.data).filter (fun c => c != ',')
  let raw2 :=
    match raw.reverse with
    | '%' :: rest => rest.reverse
    | _ => raw
  if raw2.isEmpty then Option.none else parseDecimal raw2

/-- Embedding of `_as_float` (analytics_planner.py lines 139-154): booleans
are refused, numbers pass through, `None` is refused, strings are coerced
textually. -/
def as_float : PyVal → Option ℚ
  | PyVal.bool _ => Option.none
  | PyVal.num q => some q
  | PyVal.null => Option.none
  | PyVal.str s => pyFloatParse s

/-- The visualization vocabulary of `_wants_chart`
(analytics_planner.py lines 116-126). -/
def chart_terms : List String :=
  ["chart", "graph", "plot", "bar", "line", "pie", "trend", "visualize", "visualise"]

/-- Embedding of `_wants_chart` (analytics_planner.py lines 114-127). -/
def wants_chart (question : String) : Bool :=
  let lowered := lowerStr question
  chart_terms.any (fun t => containsSub lowered t)

/-- Embedding of `_chart_kind` (analytics_planner.py lines 130-136). -/
def chart_kind (question : String) : String :=
  let lowered := lowerStr question
  if ["pie", "donut", "doughnut"].any (fun t => containsSub lowered t) then "pie"
  else if ["line", "trend", "timeline", "over time"].any (fun t => containsSub lowered t) then
    "line"
  else "bar"

/-- The canonical table shape produced by `_build_table_spec_from_exec`:
column names, rows as name-to-scalar mappings, and a title. -/
structure TableSpec where
  columns : List String
  rows : List (List (String × PyVal))
  title : String
deriving DecidableEq

/-- Embedding of `row.get(col)` (absent keys give `None`). -/
def rowGet (r : List (String × PyVal)) (c : String) : PyVal :=
  (r.lookup c).getD PyVal.null

/-- A derived chart description: kind, title, the two encoding column names
(label/value for pie, x/y for bar and line) and the data points. -/
structure ChartSpec where
  kind : String
  title : String
  labelEnc : String
  valueEnc : String
  data : List (PyVal × ℚ)
deriving DecidableEq

/-- How many sampled rows have a numerically coercible value in `col`. -/
def numericHits (sample : List (List (String × PyVal))) (col : String) : Nat :=
  sample.countP (fun r => (as_float (rowGet r col)).isSome)

/-- Embedding of `_build_chart_spec_from_table`
(analytics_planner.py lines 223-302). -/
def build_chart_spec_from_table (question : String) (tspec : Option TableSpec) :
    Option ChartSpec :=
  if !(wants_chart question) then Option.none
  else
    match tspec with
    | Option.none => Option.none
    | some t =>
      if t.columns.length < 2 ∨ t.rows.length = 0 then Option.none
      else
        let sample_rows := t.rows.take 80
        if sample_rows.isEmpty then Option.none
        else
          let numeric_cols := t.columns.filter (fun col => 0 < numericHits sample_rows col)
          let categorical_cols := t.columns.filter (fun col => numericHits sample_rows col = 0)
          if numeric_cols.isEmpty then Option.none
          else
            let kind := chart_kind question
            if kind = "pie" then
              let label_col := categorical_cols.headD (t.columns.headD "")
              let value_col :=
                (numeric_cols.find? (fun c => c != label_col)).getD (numeric_cols.headD "")
              let chart_data := (sample_rows.take 50).filterMap (fun r =>
                (as_float (rowGet r value_col)).map (fun v =>
                  ((if rowGet r label_col = PyVal.null then PyVal.str "-"
                    else PyVal.str (pyRepr (rowGet r label_col))), v)))
              if chart_data.isEmpty then Option.none
              else
                some ⟨"pie", (if t.title = "" then "Analytics Pie Chart" else t.title),
                  label_col, value_col, chart_data⟩
            else
              let x_col := categorical_cols.headD (t.columns.headD "")
              let y_col :=
                (numeric_cols.find? (fun c => c != x_col)).getD (numeric_cols.headD "")
              let chart_data := sample_rows.filterMap (fun r =>
                (as_float (rowGet r y_col)).map (fun v => (rowGet r x_col, v)))
              if chart_data.isEmpty then Option.none
              else
                some ⟨kind, (if t.title = "" then "Analytics Chart" else t.title),
                  x_col, y_col, chart_data⟩

/-! ### Repair-retry controller (analytics_planner.py lines 526-550) -/

/-- The outcome of one `engine.execute_code` call as the controller sees
it. -/
structure ExecOut where
  success : Bool
  error : String
deriving DecidableEq

/-- The outcome of the single `_repair_generated_code` request: either the
call raised (caught at line 549) or it returned a fragment (possibly empty
or identical). -/
inductive RepairOutcome
  | raised (msg : String)
  | returned (code : String)
deriving DecidableEq

/-- Embedding of the execute/repair/retry section of
`analytics_planner_node` (analytics_planner.py lines 526-550).  `runs k` is
the outcome of the `(k+1)`-st execution of generated code; the function is
straight-line in the source, so at most `runs 0` and `runs 1` are ever
consumed.  Returns the final `exec_attempts` counter and the terminal
execution result. -/
def run_exec_phase (generated_code : String) (runs : Nat → ExecOut)
    (repairOut : RepairOutcome) : Nat × ExecOut :=
  let first := runs 0
  if first.success then (1, first)
  else
    match repairOut with
    | RepairOutcome.raised _ => (1, first)
    | RepairOutcome.returned fixed =>
      if fixed ≠ "" ∧ fixed ≠ generated_code then (2, runs 1) else (1, first)

/-- Concrete two-column table {category (text), count (numeric)} used below
for concrete evaluations. -/
def pieDemoTable : TableSpec :=
  ⟨["discharge_port", "count"],
   [[("discharge_port", PyVal.str "LOS ANGELES"), ("count", PyVal.num 12)],
    [("discharge_port", PyVal.str "NEW YORK"), ("count", PyVal.num 7)]],
   "Analytics Result"⟩

/-- Concrete master snapshot used below for concrete evaluations. -/
def demoMaster : List SRow := [⟨["A"], [("container_number", "C1")]⟩]

/-- Concrete manager state: master already loaded for day `2026-01-01`, no
filtered slices yet. -/
def demoState : BlobState :=
  { heap := [demoMaster]
    master_cache := some 0
    filtered_cache := []
    last_load_date := some "2026-01-01"
    download_count := 1 }

end ShipmentQnA

namespace ShipmentQnA

theorem lexLe_total_thm : ∀ a b : List Char, lexLe a b = true ∨ lexLe b a = true := by
  intro a
  induction a with
  | nil => intro b; left; rfl
  | cons x xs ih =>
    intro b
    cases b with
    | nil => right; rfl
    | cons y ys =>
      by_cases hxy : x.toNat < y.toNat
      · left; simp [lexLe, hxy]
      · by_cases hyx : y.toNat < x.toNat
        · right; simp [lexLe, hyx]
        · have := ih ys
          rcases this with h | h
          · left; simp [lexLe, hxy, hyx, h]
          · right; simp [lexLe, hxy, hyx, h]

theorem lexLe_trans_thm : ∀ a b c : List Char,
    lexLe a b = true → lexLe b c = true → lexLe a c = true := by
  intro a
  induction a with
  | nil => intro b c _ _; rfl
  | cons x xs ih =>
    intro b c hab hbc
    cases b with
    | nil => simp [lexLe] at hab
    | cons y ys =>
      cases c with
      | nil => simp [lexLe] at hbc
      | cons z zs =>
        simp only [lexLe] at hab hbc ⊢
        by_cases hxy : x.toNat < y.toNat
        · by_cases hyz : y.toNat < z.toNat
          · have : x.toNat < z.toNat := Nat.lt_trans hxy hyz
            simp [this]
          · by_cases hzy : z.toNat < y.toNat
            · simp [hyz, hzy] at hbc
            · have hyz' : y.toNat = z.toNat := Nat.le_antisymm (Nat.le_of_not_lt hzy) (Nat.le_of_not_lt hyz)
              have : x.toNat < z.toNat := hyz' ▸ hxy
              simp [this]
        · by_cases hyx : y.toNat < x.toNat
          · simp [hxy, hyx] at hab
          · have hxy' : x.toNat = y.toNat := Nat.le_antisymm (Nat.le_of_not_lt hyx) (Nat.le_of_not_lt hxy)
            by_cases hyz : y.toNat < z.toNat
            · have : x.toNat < z.toNat := hxy' ▸ hyz
              simp [this]
            · by_cases hzy : z.toNat < y.toNat
              · simp [hyz, hzy] at hbc
              · simp [hxy, hyx] at hab
                simp [hyz, hzy] at hbc
                have hxz : ¬ x.toNat < z.toNat := by
                  rw [hxy']; exact hyz
                have hzx : ¬ z.toNat < x.toNat := by
                  rw [hxy']; exact hzy
                simp [hxz, hzx]
                exact ih ys zs hab hbc

theorem char_toNat_inj {a b : Char} (h : a.toNat = b.toNat) : a = b := by
  have ha := Char.ofNat_toNat a
  have hb := Char.ofNat_toNat b
  rw [← ha, ← hb, h]

theorem lexLe_antisymm_thm : ∀ a b : List Char,
    lexLe a b = true → lexLe b a = true → a = b := by
  intro a
  induction a with
  | nil =>
    intro b _ hba
    cases b with
    | nil => rfl
    | cons y ys => simp [lexLe] at hba
  | cons x xs ih =>
    intro b hab hba
    cases b with
    | nil => simp [lexLe] at hab
    | cons y ys =>
      simp only [lexLe] at hab hba
      by_cases hxy : x.toNat < y.toNat
      · have hyx : ¬ y.toNat < x.toNat := Nat.lt_asymm hxy
        simp [hxy, hyx] at hba
      · by_cases hyx : y.toNat < x.toNat
        · simp [hxy, hyx] at hab
        · have hx : x = y := char_toNat_inj
            (Nat.le_antisymm (Nat.le_of_not_lt hyx) (Nat.le_of_not_lt hxy))
          simp [hxy, hyx] at hab hba
          rw [hx, ih ys hab hba]

/-- C6 (amended): the filtered-cache key is canonical over the *ordering* of
the access-code list — any two lists that are permutations of each other
(same elements with the same multiplicities) produce the same key — but the
source does not deduplicate, so lists equal as sets yet differing in
multiplicity can produce different keys (see the counterexample). -/
theorem cache_key_perm (l₁ l₂ : List String) (h : List.Perm l₁ l₂) :
    cache_key l₁ = cache_key l₂ := by
  haveI hTrans : IsTrans String pyStrLe :=
    ⟨fun a b c hab hbc => lexLe_trans_thm a.data b.data c.data hab hbc⟩
  haveI hTotal : IsTotal String pyStrLe :=
    ⟨fun a b => lexLe_total_thm a.data b.data⟩
  haveI hAnti : IsAntisymm String pyStrLe :=
    ⟨fun a b hab hba => by
      cases a with
      | mk da =>
        cases b with
        | mk db =>
          have : da = db := lexLe_antisymm_thm da db hab hba
          rw [this]⟩
  unfold cache_key
  congr 1
  exact List.eq_of_perm_of_sorted
    ((List.perm_insertionSort pyStrLe l₁).trans
      (h.trans (List.perm_insertionSort pyStrLe l₂).symm))
    (List.sorted_insertionSort pyStrLe l₁)
    (List.sorted_insertionSort pyStrLe l₂)

theorem codes_block_eq (S : List String) (i : Nat) : ∀ codes : List String,
    ((codes.map (fun c => (i, some c))).filter (fun p => isinMask S p.2)).map Prod.fst
      = List.replicate (codes.countP (fun c => S.contains c)) i := by
  intro codes
  induction codes with
  | nil => rfl
  | cons c cs ih =>
    by_cases h : c ∈ S
    · simp [isinMask, h, List.countP_cons, List.replicate_succ]
      simpa [isinMask] using ih
    · simp [isinMask, h, List.countP_cons]
      simpa [isinMask] using ih

theorem explode_masked_eq (S : List String) : ∀ (s : List SRow) (i : Nat),
    ((explodeFrom i s).filter (fun p => isinMask S p.2)).map Prod.fst = matchedIdx S i s := by
  intro s
  induction s with
  | nil => intro i; rfl
  | cons r rs ih =>
    intro i
    by_cases h : r.consignee_codes.isEmpty
    · have hc : r.consignee_codes = [] := by
        cases hx : r.consignee_codes with
        | nil => rfl
        | cons a l => rw [hx] at h; simp [List.isEmpty] at h
      simp [explodeFrom, matchedIdx, h, hc, isinMask, List.filter_append, List.map_append]
      simpa [isinMask] using ih (i + 1)
    · have hblock := codes_block_eq S i r.consignee_codes
      simp only [explodeFrom, h, Bool.false_eq_true, if_false, List.filter_append,
        List.map_append, matchedIdx]
      rw [hblock, ih (i + 1)]

theorem uniqueFirstAux_replicate (i : Nat) (L : List Nat) :
    ∀ (m : Nat) (seen : List Nat), i ∈ seen →
      uniqueFirstAux seen (List.replicate m i ++ L) = uniqueFirstAux seen L := by
  intro m
  induction m with
  | zero => intro seen _; rfl
  | succ n ih =>
    intro seen h
    simp only [List.replicate_succ, List.cons_append, uniqueFirstAux, if_pos h]
    exact ih seen h

theorem uniqueFirstAux_matched (S : List String) : ∀ (s : List SRow) (i : Nat) (seen : List Nat),
    (∀ j ∈ seen, j < i) →
    uniqueFirstAux seen (matchedIdx S i s) = selIdx S i s := by
  intro s
  induction s with
  | nil => intro i seen _; rfl
  | cons r rs ih =>
    intro i seen hseen
    have hnotin : i ∉ seen := fun hx => Nat.lt_irrefl i (hseen i hx)
    cases hk : r.consignee_codes.countP (fun c => S.contains c) with
    | zero =>
      have hha : list_has_any r.consignee_codes S = false := by
        unfold list_has_any
        rw [List.any_eq_false]
        intro c hc
        have := (List.countP_eq_zero.mp hk) c hc
        simpa using this
      have hih := ih (i + 1) seen (fun j hj => Nat.lt_succ_of_lt (hseen j hj))
      simp only [matchedIdx, selIdx]
      rw [hk]
      simp only [List.replicate, List.nil_append, hha, Bool.false_eq_true, if_false]
      simpa using hih
    | succ m =>
      have hpos : 0 < r.consignee_codes.countP (fun c => S.contains c) := by
        rw [hk]; exact Nat.succ_pos m
      have hha : list_has_any r.consignee_codes S = true := by
        unfold list_has_any
        rw [List.any_eq_true]
        obtain ⟨c, hc, hp⟩ := List.countP_pos.mp hpos
        exact ⟨c, hc, hp⟩
      have hstep : ∀ j ∈ i :: seen, j < i + 1 := by
        intro j hj
        cases hj with
        | head => exact Nat.lt_succ_self i
        | tail _ hj' => exact Nat.lt_succ_of_lt (hseen j hj')
      simp only [matchedIdx, hk, List.replicate_succ, List.cons_append, uniqueFirstAux,
        if_neg hnotin]
      rw [uniqueFirstAux_replicate i _ m (i :: seen) (List.mem_cons_self i seen)]
      rw [ih (i + 1) (i :: seen) hstep]
      simp [selIdx, hha]

theorem loc_select_selIdx (S : List String) : ∀ (s f : List SRow) (i : Nat),
    f.drop i = s →
    loc_select f (selIdx S i s) = s.filter (fun r => list_has_any r.consignee_codes S) := by
  intro s
  induction s with
  | nil => intro f i _; rfl
  | cons r rs ih =>
    intro f i hdrop
    have hget : f.get? i = some r := by
      have h0 : (f.drop i).get? 0 = some r := by rw [hdrop]; rfl
      rw [List.get?_drop] at h0
      simpa using h0
    have hrest : f.drop (i + 1) = rs := by
      have h1 : (f.drop i).drop 1 = rs := by rw [hdrop]; rfl
      rw [List.drop_drop] at h1
      simpa [Nat.add_comm] using h1
    have hih := ih f (i + 1) hrest
    by_cases h : list_has_any r.consignee_codes S = true
    · have hg2 : f[i]? = some r := by
        simpa [List.get?_eq_getElem?] using hget
      simp [selIdx, h, loc_select, List.filterMap_cons, List.filter_cons, hg2] at hih ⊢
      exact hih
    · have h' : list_has_any r.consignee_codes S = false := by
        cases hx : list_has_any r.consignee_codes S with
        | false => rfl
        | true => exact absurd hx h
      simp [selIdx, h', loc_select, List.filter_cons, loc_select] at hih ⊢
      exact hih

theorem pandas_filter_eq_duckdb (s : List SRow) (S : List String) :
    load_filtered_rows s S = duckdb_view s S := by
  unfold load_filtered_rows valid_indices uniqueFirst duckdb_view
  rw [explode_masked_eq S s 0, uniqueFirstAux_matched S s 0 [] (by intro j hj; cases hj)]
  exact loc_select_selIdx S s s 0 rfl

/-- C6 counterexample: the code lists `["A", "A"]` and `["A"]` denote the
same set of access codes, yet `"|".join(sorted(...))` keys them differently
(`"A|A"` versus `"A"`), so they do not share a cached view entry. -/
theorem cache_key_not_dedup_counterexample :
    (["A", "A"] : List String).dedup = (["A"] : List String).dedup ∧
    cache_key ["A", "A"] ≠ cache_key ["A"] := by
  constructor
  · decide
  · decide

/-- C6 witness: a concrete reordering of the same codes yields the same
cache key. -/
theorem cache_key_perm_witness :
    List.Perm ["B", "A"] ["A", "B"] ∧ cache_key ["B", "A"] = cache_key ["A", "B"] :=
  ⟨List.Perm.swap "A" "B" [], cache_key_perm ["B", "A"] ["A", "B"] (List.Perm.swap "A" "B" [])⟩

/-- C1: for every snapshot and non-empty access-code set `S`, the pandas-side
filter (explode, membership mask, unique index recovery, structural select)
and the DuckDB-side view predicate (`list_has_any` on the authorization
column) select exactly the same rows, and a row appears in that common
authorized view exactly when its `consignee_codes` value intersects `S`. -/
theorem authorized_view_engines_agree (s : List SRow) (S : List String) (hS : S ≠ []) :
    load_filtered_rows s S = duckdb_view s S ∧
    ∀ r : SRow, r ∈ duckdb_view s S ↔ r ∈ s ∧ ∃ c ∈ r.consignee_codes, c ∈ S := by
  refine ⟨pandas_filter_eq_duckdb s S, ?_⟩
  intro r
  simp [duckdb_view, List.mem_filter, list_has_any, List.any_eq_true]

/-- C1 witness: for rows with authorization sets `{A,B}`, `{B}`, `{C}` and
requested set `{B}`, both engines return exactly the first two rows. -/
theorem authorized_view_engines_agree_witness :
    (["B"] : List String) ≠ [] ∧
    load_filtered_rows
        [⟨["A", "B"], [("container_number", "CONT1")]⟩,
         ⟨["B"], [("container_number", "CONT2")]⟩,
         ⟨["C"], [("container_number", "CONT3")]⟩] ["B"] =
      duckdb_view
        [⟨["A", "B"], [("container_number", "CONT1")]⟩,
         ⟨["B"], [("container_number", "CONT2")]⟩,
         ⟨["C"], [("container_number", "CONT3")]⟩] ["B"] ∧
    (duckdb_view
        [⟨["A", "B"], [("container_number", "CONT1")]⟩,
         ⟨["B"], [("container_number", "CONT2")]⟩,
         ⟨["C"], [("container_number", "CONT3")]⟩] ["B"]).length = 2 :=
  ⟨by decide,
   (authorized_view_engines_agree _ ["B"] (by decide)).1,
   by decide⟩

theorem getD_append_self {α : Type} (l : List α) (v d : α) :
    (l ++ [v]).getD l.length d = v := by
  induction l with
  | nil => rfl
  | cons a as ih => simpa using ih

/-- C9: for the empty access-code list, `load_filtered_data` returns an empty
DataFrame and does not touch the load path: the master cache, the filtered
cache, the last-load date and the download counter are all unchanged. -/
theorem empty_codes_skip_load_path (st : BlobState) (today : String) (masterRows : List SRow) :
    (load_filtered_data st today masterRows []).1.heap.getD
        (load_filtered_data st today masterRows []).2 [] = [] ∧
    (load_filtered_data st today masterRows []).1.master_cache = st.master_cache ∧
    (load_filtered_data st today masterRows []).1.filtered_cache = st.filtered_cache ∧
    (load_filtered_data st today masterRows []).1.last_load_date = st.last_load_date ∧
    (load_filtered_data st today masterRows []).1.download_count = st.download_count := by
  refine ⟨?_, rfl, rfl, rfl, rfl⟩
  simp only [load_filtered_data, List.isEmpty_nil, if_true, allocDf]
  exact getD_append_self st.heap [] []

/-- C3 counterexample: on a cache-miss call, the address handed to the caller
is the very address stored in the filtered cache (first conjunct), and a
subsequent same-day call for the same codes returns that same address
(second conjunct) — the caller does not receive an independent copy of the
stored cache entry, so mutating the returned DataFrame mutates the cached
entry and what later calls return. -/
theorem filtered_view_alias_counterexample :
    (load_filtered_data demoState "2026-01-01" demoMaster ["A"]).1.filtered_cache.lookup
        (cache_key ["A"])
      = some (load_filtered_data demoState "2026-01-01" demoMaster ["A"]).2 ∧
    (load_filtered_data
        (load_filtered_data demoState "2026-01-01" demoMaster ["A"]).1
        "2026-01-01" demoMaster ["A"]).2
      = (load_filtered_data demoState "2026-01-01" demoMaster ["A"]).2 := by
  decide

theorem filter_and_cache_spec (st : BlobState) (today : String) (masterRows : List SRow)
    (codes : List String) (key : String)
    (hmaster : ∀ m, st.master_cache = some m → m < st.heap.length) :
    (filter_and_cache st today masterRows codes key).1.filtered_cache.lookup key
      = some (filter_and_cache st today masterRows codes key).2 ∧
    ∀ m, (filter_and_cache st today masterRows codes key).1.master_cache = some m →
      m ≠ (filter_and_cache st today masterRows codes key).2 := by
  by_cases hc : st.last_load_date ≠ some today ∨ st.master_cache = Option.none
  · constructor
    · simp [filter_and_cache, reload_master, allocDf, hc, List.lookup]
    · intro m hm
      simp [filter_and_cache, reload_master, allocDf, hc] at hm ⊢
      omega
  · constructor
    · simp [filter_and_cache, reload_master, allocDf, hc, List.lookup]
    · intro m hm
      simp [filter_and_cache, reload_master, allocDf, hc] at hm ⊢
      have := hmaster m hm
      omega

/-- C3 (amended): each cache-miss call allocates the filtered view in a fresh
cell distinct from the master snapshot — so a caller mutating the returned
DataFrame can never change the master — but the returned address is exactly
the one stored in the filtered cache, not an independent copy of it: caller
mutations do reach the cached entry and what subsequent same-day calls for
the same codes return. -/
theorem filtered_view_copy_semantics_amended (st : BlobState) (today : String)
    (masterRows : List SRow) (codes : List String)
    (hcodes : codes ≠ [])
    (hmiss : st.last_load_date ≠ some today ∨
      st.filtered_cache.lookup (cache_key codes) = Option.none)
    (hmaster : ∀ m, st.master_cache = some m → m < st.heap.length) :
    (load_filtered_data st today masterRows codes).1.filtered_cache.lookup (cache_key codes)
      = some (load_filtered_data st today masterRows codes).2 ∧
    ∀ m, (load_filtered_data st today masterRows codes).1.master_cache = some m →
      m ≠ (load_filtered_data st today masterRows codes).2 := by
  have hne : codes.isEmpty = false := by
    cases codes with
    | nil => exact absurd rfl hcodes
    | cons a l => rfl
  by_cases hd : st.last_load_date = some today
  · have hlk : st.filtered_cache.lookup (cache_key codes) = Option.none := by
      rcases hmiss with h | h
      · exact absurd hd h
      · exact h
    simp only [load_filtered_data, hne, Bool.false_eq_true, if_false, hd, if_true, hlk]
    exact filter_and_cache_spec st today masterRows codes (cache_key codes) hmaster
  · simp only [load_filtered_data, hne, Bool.false_eq_true, if_false, hd, if_false]
    exact filter_and_cache_spec st today masterRows codes (cache_key codes) hmaster

/-- C3 witness: instantiating the amended theorem at the concrete state. -/
theorem filtered_view_copy_semantics_amended_witness :
    (["A"] : List String) ≠ [] ∧
    demoState.filtered_cache.lookup (cache_key ["A"]) = Option.none ∧
    (load_filtered_data demoState "2026-01-01" demoMaster ["A"]).1.filtered_cache.lookup
        (cache_key ["A"])
      = some (load_filtered_data demoState "2026-01-01" demoMaster ["A"]).2 :=
  ⟨by decide, by decide,
   (filtered_view_copy_semantics_amended demoState "2026-01-01" demoMaster ["A"]
      (by decide) (Or.inr (by decide))
      (by intro m hm; simp [demoState] at hm ⊢; omega)).1⟩

theorem lookup_filter_none (p : String) (q : String × String → Bool)
    (fs : List (String × String)) (h : fs.lookup p = Option.none) :
    (fs.filter q).lookup p = Option.none := by
  rw [List.lookup_eq_none_iff] at h ⊢
  intro e he
  exact h e (List.mem_of_mem_filter he)

theorem lookup_fsRemove_self (p : String) (fs : List (String × String)) :
    (fsRemove fs p).lookup p = Option.none := by
  rw [List.lookup_eq_none_iff]
  intro e he
  have h1 : (e.1 != p) = true := by
    simpa using List.of_mem_filter he
  simp only [bne_iff_ne] at h1 ⊢
  exact fun hx => h1 hx.symm

/-- C5: when the single streaming fetch fails partway, `download_master_data`
removes the partially written target file and surfaces the error, so after a
failed fetch no on-disk snapshot file for that day and mode exists; the
source consumes exactly one fetch outcome (no internal retry). -/
theorem download_failure_leaves_no_partial_file
    (fs : List (String × String)) (today cache_dir partData msg : String)
    (hmiss : fsLookup fs (cache_path cache_dir today false) = Option.none) :
    (download_master_data fs today cache_dir false (FetchOutcome.err partData msg)).2
      = Except.error ("Blob download failed: " ++ msg) ∧
    fsLookup (download_master_data fs today cache_dir false (FetchOutcome.err partData msg)).1
      (cache_path cache_dir today false) = Option.none := by
  have h1 : fsLookup (cleanup_old_cache fs cache_dir (cache_path cache_dir today false))
      (cache_path cache_dir today false) = Option.none :=
    lookup_filter_none _ _ fs hmiss
  have h2 : (fsLookup (cleanup_old_cache fs cache_dir (cache_path cache_dir today false))
      (cache_path cache_dir today false)).isSome = false := by rw [h1]; rfl
  constructor
  · simp only [download_master_data, h2, Bool.false_eq_true, if_false]
  · simp only [download_master_data, h2, Bool.false_eq_true, if_false]
    exact lookup_fsRemove_self _ _

/-- C5 witness: a stale snapshot for the previous day, a failed fetch for
today; afterwards no file for today exists. -/
theorem download_failure_leaves_no_partial_file_witness :
    fsLookup [("data_cache/master_2026-01-01.parquet", "old")]
        (cache_path "data_cache" "2026-01-02" false) = Option.none ∧
    fsLookup
        (download_master_data [("data_cache/master_2026-01-01.parquet", "old")]
          "2026-01-02" "data_cache" false (FetchOutcome.err "PARTIALBYTES" "socket reset")).1
        (cache_path "data_cache" "2026-01-02" false) = Option.none :=
  ⟨by decide,
   (download_failure_leaves_no_partial_file _ "2026-01-02" "data_cache" "PARTIALBYTES"
     "socket reset" (by decide)).2⟩

/-- C2: the controller performs at most two executions of generated code for
one question; the second happens exactly when the first fails and the repair
request returns a non-empty fragment different from the original; and when a
retry happens its outcome — success or failure — is the terminal result. -/
theorem repair_retry_bounded (code : String) (runs : Nat → ExecOut) (rep : RepairOutcome) :
    (run_exec_phase code runs rep).1 ≤ 2 ∧
    ((run_exec_phase code runs rep).1 = 2 ↔
      (runs 0).success = false ∧
        ∃ fixed, rep = RepairOutcome.returned fixed ∧ fixed ≠ "" ∧ fixed ≠ code) ∧
    ((run_exec_phase code runs rep).1 = 2 → (run_exec_phase code runs rep).2 = runs 1) ∧
    ((runs 0).success = true →
      (run_exec_phase code runs rep).1 = 1 ∧ (run_exec_phase code runs rep).2 = runs 0) := by
  unfold run_exec_phase
  cases hs : (runs 0).success with
  | true => simp [hs]
  | false =>
    cases rep with
    | raised m => simp [hs]
    | returned fixed =>
      by_cases hf : fixed ≠ "" ∧ fixed ≠ code
      · simp [hs, hf]
      · simp [hs, hf]

/-- C2 witness: a first failure, a repaired differing fragment and a second
failure still give at most two executions. -/
theorem repair_retry_bounded_witness :
    (run_exec_phase "result = df.foo()"
        (fun k => if k = 0 then ⟨false, "AttributeError"⟩ else ⟨false, "KeyError"⟩)
        (RepairOutcome.returned "result = df.head()")).1 ≤ 2 :=
  (repair_retry_bounded "result = df.foo()"
    (fun k => if k = 0 then ⟨false, "AttributeError"⟩ else ⟨false, "KeyError"⟩)
    (RepairOutcome.returned "result = df.head()")).1

/-- C4: the code contradicts the claim (and the repository's own test
`tests/test_harden_verification.py::test_pandas_engine_rce_blocking`): the
fragment `res = __import__(\x27os\x27).system(\x27ls\x27)` references the
module `os` without a line-initial import statement, so the preflight
validator finds nothing and the fragment is executed — `exec` is reached and
no pre-execution rejection naming the module happens. -/
theorem rce_reference_bypasses_preflight :
    preflight_validate_code [⟨Option.none, [], []⟩] = Option.none ∧
    (execute_code [(⟨["a"], [[PCell.scalar (PyVal.num 1)]]⟩ : PDataFrame)] [] 0
        ⟨[⟨Option.none, [], []⟩], [],
         fun d _ => ⟨d, [], "", Option.none⟩⟩).2.execCalled = true := by
  constructor
  · rfl
  · rfl

theorem chart_two_col_eval (q : String) (t : TableSpec) (cat cnt : String)
    (hw : wants_chart q = true)
    (hcols : t.columns = [cat, cnt]) (hne : cat ≠ cnt) (hrows : t.rows ≠ [])
    (hcat : ∀ r ∈ t.rows, as_float (rowGet r cat) = Option.none)
    (hcnt : ∀ r ∈ t.rows, (as_float (rowGet r cnt)).isSome = true) :
    ∃ spec, build_chart_spec_from_table q (some t) = some spec ∧
      spec.kind = chart_kind q ∧ spec.labelEnc = cat ∧ spec.valueEnc = cnt := by
  obtain ⟨r0, rest, hr⟩ : ∃ r0 rest, t.rows = r0 :: rest := by
    cases hx : t.rows with
    | nil => exact absurd hx hrows
    | cons a l => exact ⟨a, l, rfl⟩
  have hr0mem : r0 ∈ t.rows := by rw [hr]; exact List.mem_cons_self _ _
  obtain ⟨v0, hv0⟩ : ∃ v, as_float (rowGet r0 cnt) = some v :=
    Option.isSome_iff_exists.mp (hcnt r0 hr0mem)
  have hsample : t.rows.take 80 = r0 :: rest.take 79 := by rw [hr]; rfl
  have hhit0 : numericHits (t.rows.take 80) cat = 0 := by
    unfold numericHits
    rw [List.countP_eq_zero]
    intro r hrm
    rw [hcat r (List.mem_of_mem_take hrm)]
    simp
  have hne0 : numericHits (t.rows.take 80) cnt ≠ 0 := by
    unfold numericHits
    intro hzero
    rw [List.countP_eq_zero] at hzero
    exact hzero r0 (by rw [hsample]; exact List.mem_cons_self _ _) (hcnt r0 hr0mem)
  have hhit1 : 0 < numericHits (t.rows.take 80) cnt := Nat.pos_of_ne_zero hne0
  have hfilnum :
      t.columns.filter (fun col => decide (0 < numericHits (t.rows.take 80) col)) = [cnt] := by
    rw [hcols]
    have d0 : decide (0 < numericHits (t.rows.take 80) cat) = false := by simp [hhit0]
    have d1 : decide (0 < numericHits (t.rows.take 80) cnt) = true := by simp [hhit1]
    simp [List.filter_cons, d0, d1]
  have hfilcat :
      t.columns.filter (fun col => decide (numericHits (t.rows.take 80) col = 0)) = [cat] := by
    rw [hcols]
    have d0 : decide (numericHits (t.rows.take 80) cat = 0) = true := by simp [hhit0]
    have d1 : decide (numericHits (t.rows.take 80) cnt = 0) = false := by simp [hne0]
    simp [List.filter_cons, d0, d1]
  have hbne : (cnt != cat) = true := by
    simp only [bne_iff_ne, ne_eq]
    exact fun hx => hne hx.symm
  have hfind : ([cnt].find? fun c => c != cat) = some cnt := by
    simp [List.find?, hbne]
  have hcond : ¬(t.columns.length < 2 ∨ t.rows.length = 0) := by
    rw [hcols, hr]; simp
  have hsampleE : (t.rows.take 80).isEmpty = false := by rw [hsample]; rfl
  by_cases hk : chart_kind q = "pie"
  · have htake50 : (t.rows.take 80).take 50 = r0 :: (rest.take 79).take 49 := by
      rw [hsample]; rfl
    have hbuild : build_chart_spec_from_table q (some t) =
        some ⟨"pie", (if t.title = "" then "Analytics Pie Chart" else t.title), cat, cnt,
          ((t.rows.take 80).take 50).filterMap (fun r =>
            (as_float (rowGet r cnt)).map (fun v =>
              ((if rowGet r cat = PyVal.null then PyVal.str "-"
                else PyVal.str (pyRepr (rowGet r cat))), v)))⟩ := by
      simp only [build_chart_spec_from_table, hw, Bool.not_true, Bool.false_eq_true, if_false,
        hcond, hsampleE, hfilnum, hfilcat, hk, if_true, List.isEmpty_cons, List.headD]
      rw [hfind, htake50]
      simp [List.filterMap_cons, hv0]
    exact ⟨_, hbuild, hk.symm, rfl, rfl⟩
  · have hbuild : build_chart_spec_from_table q (some t) =
        some ⟨chart_kind q, (if t.title = "" then "Analytics Chart" else t.title), cat, cnt,
          (t.rows.take 80).filterMap (fun r =>
            (as_float (rowGet r cnt)).map (fun v => (rowGet r cat, v)))⟩ := by
      simp only [build_chart_spec_from_table, hw, Bool.not_true, Bool.false_eq_true, if_false,
        hcond, hsampleE, hfilnum, hfilcat, hk, if_true, List.isEmpty_cons, List.headD]
      rw [hfind, hsample]
      simp [List.filterMap_cons, hv0]
    exact ⟨_, hbuild, rfl, rfl, rfl⟩

/-- C7: for a two-column table {category (text), count (numeric)} with at
least one row, a question containing "pie" yields a chart spec with kind
`"pie"`, label encoding the category column and value encoding the count
column; and no chart spec is produced when the table has fewer than two
columns, has no rows, or has no column with any numerically coercible
value. -/
theorem pie_chart_spec_derivation :
    (∀ (q : String) (t : TableSpec) (cat cnt : String),
      containsSub (lowerStr q) "pie" = true → t.columns = [cat, cnt] → cat ≠ cnt →
      t.rows ≠ [] →
      (∀ r ∈ t.rows, as_float (rowGet r cat) = Option.none) →
      (∀ r ∈ t.rows, (as_float (rowGet r cnt)).isSome = true) →
      ∃ spec, build_chart_spec_from_table q (some t) = some spec ∧ spec.kind = "pie" ∧
        spec.labelEnc = cat ∧ spec.valueEnc = cnt) ∧
    (∀ (q : String) (t : TableSpec), t.columns.length < 2 →
      build_chart_spec_from_table q (some t) = Option.none) ∧
    (∀ (q : String) (t : TableSpec), t.rows = [] →
      build_chart_spec_from_table q (some t) = Option.none) ∧
    (∀ (q : String) (t : TableSpec),
      (∀ col, ∀ r ∈ t.rows, as_float (rowGet r col) = Option.none) →
      build_chart_spec_from_table q (some t) = Option.none) := by
  refine ⟨?_, ?_, ?_, ?_⟩
  · intro q t cat cnt hq hcols hne hrows hcat hcnt
    have hw : wants_chart q = true := by
      show (chart_terms.any fun s => containsSub (lowerStr q) s) = true
      rw [List.any_eq_true]
      exact ⟨"pie", by decide, hq⟩
    have hkind : chart_kind q = "pie" := by
      have hcond : ((["pie", "donut", "doughnut"] : List String).any fun s =>
          containsSub (lowerStr q) s) = true := by
        rw [List.any_eq_true]
        exact ⟨"pie", by decide, hq⟩
      simp [chart_kind, hcond]
    obtain ⟨spec, hspec, hk, hl, hv⟩ := chart_two_col_eval q t cat cnt hw hcols hne hrows hcat hcnt
    exact ⟨spec, hspec, by rw [hk, hkind], hl, hv⟩
  · intro q t h
    cases hw : wants_chart q with
    | false => simp [build_chart_spec_from_table, hw]
    | true => simp [build_chart_spec_from_table, hw, h]
  · intro q t h
    cases hw : wants_chart q with
    | false => simp [build_chart_spec_from_table, hw]
    | true => simp [build_chart_spec_from_table, hw, h]
  · intro q t h
    cases hw : wants_chart q with
    | false => simp [build_chart_spec_from_table, hw]
    | true =>
      by_cases hcond : t.columns.length < 2 ∨ t.rows.length = 0
      · simp only [build_chart_spec_from_table, hw, Bool.not_true, Bool.false_eq_true, if_false]
        rw [if_pos hcond]
      · have hfil : t.columns.filter
            (fun col => decide (0 < numericHits (t.rows.take 80) col)) = [] := by
          rw [List.filter_eq_nil_iff]
          intro col hcol
          have : numericHits (t.rows.take 80) col = 0 := by
            unfold numericHits
            rw [List.countP_eq_zero]
            intro r hrm
            rw [h col r (List.mem_of_mem_take hrm)]
            simp
          simp [this]
        simp [build_chart_spec_from_table, hw, hcond, hfil]

/-- C7 witness: the concrete table from the repository's chart-spec test with
a "pie" question. -/
theorem pie_chart_spec_derivation_witness :
    containsSub (lowerStr "show pie chart of shipment count by discharge port") "pie" = true ∧
    (∃ spec, build_chart_spec_from_table "show pie chart of shipment count by discharge port"
        (some pieDemoTable) = some spec ∧ spec.kind = "pie" ∧
        spec.labelEnc = "discharge_port" ∧ spec.valueEnc = "count") :=
  ⟨by decide,
   pie_chart_spec_derivation.1 _ pieDemoTable "discharge_port" "count" (by decide) rfl
     (by decide) (by decide) (by decide) (by decide)⟩

/-- C8 counterexample: questions containing "distribution", "breakdown" or
"top N" match none of the terms `_wants_chart` actually checks, so — against
the claim — a chartable two-column table with such a question yields no chart
spec. -/
theorem chart_vocabulary_counterexample :
    wants_chart "show the distribution of shipments by discharge port" = false ∧
    wants_chart "give me a breakdown of shipments by status" = false ∧
    wants_chart "top 10 discharge ports by shipment count" = false ∧
    build_chart_spec_from_table "show the distribution of shipments by discharge port"
      (some pieDemoTable) = Option.none := by
  refine ⟨by decide, by decide, by decide, ?_⟩
  decide

/-- C8 (amended): chart derivation is gated by `_wants_chart`, whose
vocabulary is chart/graph/plot/bar/line/pie/trend/visualize/visualise: a
question matching none of these terms never produces a chart spec, and a
question matching the vocabulary produces one for a chartable two-column
{category, count} table.  "distribution", "breakdown" and "top N" are not in
the vocabulary (see the counterexample). -/
theorem chart_vocabulary_amended :
    (∀ (q : String) (tOpt : Option TableSpec),
      wants_chart q = false → build_chart_spec_from_table q tOpt = Option.none) ∧
    (∀ (q : String) (t : TableSpec) (cat cnt : String),
      wants_chart q = true → t.columns = [cat, cnt] → cat ≠ cnt → t.rows ≠ [] →
      (∀ r ∈ t.rows, as_float (rowGet r cat) = Option.none) →
      (∀ r ∈ t.rows, (as_float (rowGet r cnt)).isSome = true) →
      (build_chart_spec_from_table q (some t)).isSome = true) := by
  constructor
  · intro q tOpt hw
    simp [build_chart_spec_from_table, hw]
  · intro q t cat cnt hw hcols hne hrows hcat hcnt
    obtain ⟨spec, hspec, _, _, _⟩ := chart_two_col_eval q t cat cnt hw hcols hne hrows hcat hcnt
    rw [hspec]
    rfl

/-- C8 witness: a question without visualization vocabulary yields no chart;
a "bar chart" question on the same chartable table yields one. -/
theorem chart_vocabulary_amended_witness :
    wants_chart "list shipment count by discharge port" = false ∧
    build_chart_spec_from_table "list shipment count by discharge port" (some pieDemoTable)
      = Option.none ∧
    wants_chart "bar chart of shipment count by discharge port" = true ∧
    (build_chart_spec_from_table "bar chart of shipment count by discharge port"
        (some pieDemoTable)).isSome = true :=
  ⟨by decide,
   chart_vocabulary_amended.1 _ (some pieDemoTable) (by decide),
   by decide,
   chart_vocabulary_amended.2 _ pieDemoTable "discharge_port" "count" (by decide) rfl
     (by decide) (by decide) (by decide) (by decide)⟩

end ShipmentQnA
